import Mathlib

/-!
Shallow embedding of the Grok X Ads workflow-canvas frontend.

The definitions below are translated from the repository's React sources:
  * `WorkflowCanvas` (the variant with `PRIMARY_ROW_Y`, `makeEdge` and
    `centeredOffsets`): graph state, `updateNodeStatus`, `updateEdgeStatus`,
    `handleDemographicsReceived`, `handleBrandStyleConfirmed` (its success and
    failure outcomes), `handlePreviewImage`.
  * `PreviewNode.jsx`: `parseJsonlFeed`, `buildDisplayFeed` and the
    autoscroll animation tick.
  * The age-range canonicalization shared by `handleBrandStyleConfirmed` and
    `GenerateNode.handleGenerate`.

JavaScript numbers that only ever hold exact small values (positions, offsets,
the scroll accumulator) are modelled as rationals (`Rat`); JS `null`/`undefined`
become `Option`; the bag-of-fields node `data` object becomes a structure with
optional fields defaulting to `none`.
-/

/-- Is the first character list a leading piece of the second?  (The prefix
test underlying JS `String.prototype.startsWith`.) -/
def leadsWith : List Char → List Char → Bool
  | [], _ => true
  | _ :: _, [] => false
  | a :: as, b :: bs => a == b && leadsWith as bs

/-- Mirrors JS `s.startsWith(pre)`: is `pre` a leading piece of `s`?
Stated on the underlying character lists so that it is provable by list
induction. -/
def strStartsWith (s pre : String) : Bool :=
  leadsWith pre.data s.data

/-- An age-range bound pair; `none` is JS `null` ("open-ended"). -/
structure AgeRange where
  min : Option Int
  max : Option Int
deriving Repr, DecidableEq

/-- The confirmed demographics record built by `DemographicsNode.handleConfirm`. -/
structure Demographics where
  product_url : String := ""
  gender : String := ""
  age_range : Option AgeRange := none
  language : Option (List String) := none
  location : Option (List String) := none
  intent : String := ""
deriving Repr, DecidableEq

/-- The `age_range` → string conversion of `handleBrandStyleConfirmed`
(duplicated in `GenerateNode.handleGenerate`): the if-chain on `min === null` /
`max === null`. -/
def ageRangeStr (r : AgeRange) : String :=
  match r.min, r.max with
  | none, none => "All"
  | none, some mx => toString mx ++ "-"
  | some mn, none => toString mn ++ "+"
  | some mn, some mx => toString mn ++ "-" ++ toString mx

/-- A user object inside a feed entry's `includes.users`. -/
structure FeedUser where
  id : Option String := none
  name : Option String := none
  username : Option String := none
deriving Repr, DecidableEq

/-- The `tweet` object of a decoded JSONL feed entry. -/
structure FeedTweet where
  id : Option String := none
  author_id : Option String := none
  text : Option String := none
deriving Repr, DecidableEq

/-- One successfully JSON-decoded line of the feed file: its optional `tweet`
and `includes.users`. -/
structure FeedEntry where
  tweet : Option FeedTweet := none
  users : List FeedUser := []
deriving Repr, DecidableEq

/-- A parsed tweet record as `parseJsonlFeed` pushes it. -/
structure Tweet where
  id : String
  authorName : String
  authorHandle : String
  text : String
deriving Repr, DecidableEq

/-- JS `opt || d` on strings: `undefined`, `null` and `""` are falsy. -/
def orElseStr (s : Option String) (d : String) : String :=
  match s with
  | some v => if v = "" then d else v
  | none => d

/-- The record `parseJsonlFeed` builds from one decoded entry.  `randId`
stands for the `Math.random().toString(36).slice(2)` fallback id, passed in
because the JS value is drawn from an external random source. -/
def tweetOfEntry (randId : String) (e : FeedEntry) : Tweet :=
  let author := (e.users.find? (fun u => u.id == e.tweet.bind FeedTweet.author_id)).getD {}
  { id := orElseStr (e.tweet.bind FeedTweet.id) randId
    authorName := orElseStr author.name "Foodie"
    authorHandle :=
      match author.username with
      | some un => if un = "" then "@foodie" else "@" ++ un
      | none => "@foodie"
    text := orElseStr (e.tweet.bind FeedTweet.text) "" }

/-- The `for (const line of lines)` loop of `parseJsonlFeed`: stop once
`maxItems` records are collected, skip lines that fail to decode, keep source
order.  `decode` stands for `JSON.parse` plus field access (an external JS
builtin); a line it rejects is the `catch`-and-skip branch. -/
def parseLines (decode : String → Option FeedEntry) (randId : String)
    (maxItems : Nat) : List String → Nat → List Tweet
  | [], _ => []
  | l :: ls, count =>
    if maxItems ≤ count then []
    else
      match decode l with
      | some e => tweetOfEntry randId e :: parseLines decode randId maxItems ls (count + 1)
      | none => parseLines decode randId maxItems ls count

/-- `parseJsonlFeed(text, maxItems)` from `PreviewNode.jsx`:
`text.split('\n').filter(Boolean)` then the bounded collection loop. -/
def parseJsonlFeed (decode : String → Option FeedEntry) (randId : String)
    (text : String) (maxItems : Nat) : List Tweet :=
  parseLines decode randId maxItems ((text.splitOn "\n").filter (fun l => !(l == ""))) 0

/-- A slot of the merged display feed: the promoted ad or a content tweet,
with the `key` string the source attaches. -/
inductive DisplayItem where
  | ad (key : String) (imageUrl : Option String)
  | tweet (key : String) (t : Tweet)
deriving Repr, DecidableEq

/-- `PREVIEW_COUNT` from `PreviewNode.jsx`. -/
def PREVIEW_COUNT : Nat := 10

/-- `AD_INTERVAL` from `PreviewNode.jsx` ("every 3rd item is the ad"). -/
def AD_INTERVAL : Nat := 3

/-- The slot loop of `buildDisplayFeed`, one recursive step per remaining
slot.  `pos` is the 1-based `position`, `ti` the `tweetIndex`.  For `pos ≥ 1`
the test `pos % adInterval = 0` agrees with JS also at `adInterval = 0`
(there `pos % 0` is `NaN`, never `=== 0`; here `pos % 0 = pos ≠ 0`). -/
def buildSlots (adInterval : Nat) (tweets : List Tweet) (imageUrl : Option String) :
    Nat → Nat → Nat → List DisplayItem
  | _, _, 0 => []
  | pos, ti, remaining + 1 =>
    if pos % adInterval = 0 then
      DisplayItem.ad ("ad-" ++ toString pos) imageUrl ::
        buildSlots adInterval tweets imageUrl (pos + 1) ti remaining
    else
      match tweets.get? ti with
      | some t =>
          DisplayItem.tweet ("tweet-" ++ toString pos) t ::
            buildSlots adInterval tweets imageUrl (pos + 1) (ti + 1) remaining
      | none => buildSlots adInterval tweets imageUrl (pos + 1) ti remaining

/-- `buildDisplayFeed` with the two module constants as explicit parameters:
iterate positions `1..totalSlots`, every `adInterval`-th slot is the ad. -/
def buildDisplayFeedWith (totalSlots adInterval : Nat) (tweets : List Tweet)
    (imageUrl : Option String) : List DisplayItem :=
  buildSlots adInterval tweets imageUrl 1 0 totalSlots

/-- `buildDisplayFeed(tweets, imageUrl)` from `PreviewNode.jsx`. -/
def buildDisplayFeed (tweets : List Tweet) (imageUrl : Option String) : List DisplayItem :=
  buildDisplayFeedWith PREVIEW_COUNT AD_INTERVAL tweets imageUrl

/-- The `key` of a display item when it is the ad slot. -/
def adKeyOf : DisplayItem → Option String
  | DisplayItem.ad key _ => some key
  | DisplayItem.tweet _ _ => none

/-- The tweet carried by a display item when it is a content slot. -/
def tweetValOf : DisplayItem → Option Tweet
  | DisplayItem.ad _ _ => none
  | DisplayItem.tweet _ t => some t

example : buildDisplayFeed [] (some "i") =
    [DisplayItem.ad "ad-3" (some "i"), DisplayItem.ad "ad-6" (some "i"),
     DisplayItem.ad "ad-9" (some "i")] := by decide

/-- The generated-image payload of one branch in the `/generate-ad-image`
response (`result.images[i]`). -/
structure GenImage where
  image_url : Option String := none
  text_placement : Option String := none
deriving Repr, DecidableEq

/-- The per-node `data` bag of `WorkflowCanvas` nodes, as a structure with
optional fields (absent JS fields are `none`). -/
structure NodeData where
  status : String
  productUrl : Option String := none
  prompt : Option String := none
  demographics : Option Demographics := none
  confirmedDemographics : Option Demographics := none
  imageUrl : Option String := none
  textPlacement : Option String := none
  centerOffset : Rat := 0
deriving Repr, DecidableEq

/-- A React Flow node of the canvas: id, `type`, position, `data`. -/
structure FlowNode where
  id : String
  type : String
  x : Rat
  y : Rat
  data : NodeData
deriving Repr, DecidableEq

/-- A React Flow edge.  `styleActive` is whether `style` is the
`activeEdgeStyle` object (vs `defaultEdgeStyle`); `markerColor` the
`markerEnd` arrow color. -/
structure FlowEdge where
  id : String
  source : String
  target : String
  sourceHandle : String
  targetHandle : String
  edgeType : String
  animated : Bool
  styleActive : Bool
  markerColor : String
deriving Repr, DecidableEq

/-- Canvas state: the `nodes` and `edges` React state arrays. -/
structure Canvas where
  nodes : List FlowNode
  edges : List FlowEdge
deriving Repr, DecidableEq

/-- `PRIMARY_ROW_Y` from `WorkflowCanvas`. -/
def PRIMARY_ROW_Y : Rat := 200

/-- The `makeEdge` helper: fixed `output`/`input` handles, `smoothstep` when
curved else `straight`. -/
def makeEdge (id source target : String) (curved animated styleActive : Bool)
    (color : String) : FlowEdge :=
  { id := id, source := source, target := target
    sourceHandle := "output", targetHandle := "input"
    edgeType := if curved then "smoothstep" else "straight"
    animated := animated, styleActive := styleActive, markerColor := color }

/-- `centeredOffsets(count, spacing)`: `[0]` for at most one sibling,
otherwise `(i - (count-1)/2) * spacing` for each `i < count`. -/
def centeredOffsets (count : Nat) (spacing : Rat) : List Rat :=
  if count ≤ 1 then [0]
  else (List.range count).map (fun (i : Nat) => ((i : Rat) - ((count : Rat) - 1) / 2) * spacing)

/-- The `initialNodes` array: the three fixed upfront stage nodes. -/
def initialNodes : List FlowNode :=
  [ { id := "productUrl", type := "productUrl", x := 50, y := PRIMARY_ROW_Y
      data := { status := "active", productUrl := some "", prompt := some "", centerOffset := 0 } }
  , { id := "demographics", type := "demographics", x := 500, y := PRIMARY_ROW_Y
      data := { status := "pending", demographics := none, centerOffset := 0 } }
  , { id := "brandStyle", type := "brandStyle", x := 950, y := PRIMARY_ROW_Y
      data := { status := "pending", confirmedDemographics := none, centerOffset := 0 } } ]

/-- The `initialEdges` array: `e1-2` carries the active style from the start,
`e2-3` the default style. -/
def initialEdges : List FlowEdge :=
  [ makeEdge "e1-2" "productUrl" "demographics" false false true "#ffffff"
  , makeEdge "e2-3" "demographics" "brandStyle" false false false "#cfd0d2" ]

/-- The canvas at session start. -/
def initialCanvas : Canvas :=
  { nodes := initialNodes, edges := initialEdges }

/-- `updateNodeStatus(nodeId, status)`: map over `nodes`, replacing the
matching node's `data.status`. -/
def updateNodeStatus (nodeId status : String) (c : Canvas) : Canvas :=
  { c with nodes := c.nodes.map (fun n =>
      if n.id = nodeId then { n with data := { n.data with status := status } } else n) }

/-- `updateEdgeStatus(edgeId, isActive)`: map over `edges`; the matching edge
gets `animated: false`, the active or default style, and a white arrow. -/
def updateEdgeStatus (edgeId : String) (isActive : Bool) (c : Canvas) : Canvas :=
  { c with edges := c.edges.map (fun e =>
      if e.id = edgeId then
        { e with animated := false, styleActive := isActive, markerColor := "#ffffff" }
      else e) }

/-- `handleDemographicsReceived(data)`: ProductUrl node completed, the
Demographics node active with the payload stored, then
`updateEdgeStatus('e2-3', true)`. -/
def handleDemographicsReceived (d : Demographics) (c : Canvas) : Canvas :=
  let c1 := updateNodeStatus "productUrl" "completed" c
  let c2 : Canvas :=
    { c1 with nodes := c1.nodes.map (fun n =>
        if n.id = "demographics" then
          { n with data := { n.data with status := "active", demographics := some d } }
        else n) }
  updateEdgeStatus "e2-3" true c2

/-- A fan-out stage id: `'generate'`, `'generate-*'` or `'image-*'` — the
predicate of the node and edge filters in `handleBrandStyleConfirmed`. -/
def isFanOutId (s : String) : Bool :=
  s == "generate" || strStartsWith s "generate-" || strStartsWith s "image-"

/-- The `y` base of the fan-out: `brandNode?.position?.y ?? PRIMARY_ROW_Y`. -/
def brandBaseY (c : Canvas) : Rat :=
  ((c.nodes.find? (fun n => n.id == "brandStyle")).map FlowNode.y).getD PRIMARY_ROW_Y

/-- The `newNodes` array of the fan-out loop: one `imageResult` node per
response image, placed at `x = 1400`, `y = baseY + offsets[i]`. -/
def newFanNodes (images : List GenImage) (baseY : Rat) : List FlowNode :=
  let offsets := centeredOffsets images.length 480
  images.enum.map (fun p =>
    { id := "image-" ++ toString p.1, type := "imageResult", x := 1400
      y := baseY + offsets.getD p.1 0
      data := { status := "active", imageUrl := p.2.image_url
                textPlacement := p.2.text_placement
                centerOffset := offsets.getD p.1 0 } })

/-- The `newEdges` array of the fan-out loop: `brandStyle → image-i`, curved
when more than one branch, active style, white arrow. -/
def newFanEdges (images : List GenImage) : List FlowEdge :=
  images.enum.map (fun p =>
    makeEdge ("e-brand-img-" ++ toString p.1) "brandStyle" ("image-" ++ toString p.1)
      (decide (1 < images.length)) false true "#ffffff")

/-- `handleBrandStyleConfirmed` when the generation call succeeds with
`images`: BrandStyle is marked active, then completed; the node and edge
arrays are filtered free of every fan-out stage node (and edge targeting one)
and the new siblings appended.  The base `y` is read from the render
snapshot `nodes`, i.e. the entry state. -/
def handleBrandStyleConfirmedSuccess (images : List GenImage) (c : Canvas) : Canvas :=
  let c1 := updateNodeStatus "brandStyle" "active" c
  let c2 := updateNodeStatus "brandStyle" "completed" c1
  let nn := newFanNodes images (brandBaseY c)
  let ne := newFanEdges images
  { nodes := c2.nodes.filter (fun n => !(isFanOutId n.id)) ++ nn
    edges := c2.edges.filter (fun e => !(isFanOutId e.target)) ++ ne }

/-- `handleBrandStyleConfirmed` when the generation call rejects: BrandStyle
was marked active before the attempt and is set to active again in the
`catch`; nothing else of the graph is touched. -/
def handleBrandStyleConfirmedFailure (c : Canvas) : Canvas :=
  let c1 := updateNodeStatus "brandStyle" "active" c
  updateNodeStatus "brandStyle" "active" c1

/-- `handlePreviewImage(nodeId, data)`: append a `preview-` child node and its
edge unless either already exists, then mark the source node completed. -/
def handlePreviewImage (nodeId : String) (d : NodeData) (c : Canvas) : Canvas :=
  let previewNodeId := "preview-" ++ nodeId
  let nodes' :=
    if c.nodes.any (fun n => n.id == previewNodeId) then c.nodes
    else
      let src := c.nodes.find? (fun n => n.id == nodeId)
      c.nodes ++
        [ { id := previewNodeId, type := "preview", x := 2300
            y := (src.map FlowNode.y).getD 0
            data := { status := "active", imageUrl := d.imageUrl
                      textPlacement := d.textPlacement
                      centerOffset := (src.map (fun n => n.data.centerOffset)).getD 0 } } ]
  let edges' :=
    if c.edges.any (fun e => e.target == previewNodeId) then c.edges
    else c.edges ++ [makeEdge ("e-" ++ nodeId ++ "-prev") nodeId previewNodeId false false true "#ffffff"]
  updateNodeStatus nodeId "completed" { nodes := nodes', edges := edges' }

/-- `scrollSpeed` of the autoscroll effect (`0.8` pixels per 60fps frame). -/
def scrollSpeed : Rat := 4 / 5

/-- One animation tick of the autoscroll effect: clamp the elapsed time to
16ms, advance by `scrollSpeed * (delta / 16)`, subtract the single-copy feed
height once the accumulator has reached it. -/
def autoscrollTick (singleHeight acc elapsed : Rat) : Rat :=
  let delta := min elapsed 16
  let acc1 := acc + scrollSpeed * (delta / 16)
  if singleHeight ≤ acc1 then acc1 - singleHeight else acc1

/-- The accumulator after a run of ticks with the given elapsed times,
starting from `0`. -/
def autoscrollRun (singleHeight : Rat) (ticks : List Rat) : Rat :=
  ticks.foldl (autoscrollTick singleHeight) 0

/-! ### Helper lemmas -/

theorem leadsWith_self_append (l t : List Char) : leadsWith l (l ++ t) = true := by
  induction l with
  | nil => rfl
  | cons a as ih => simp [leadsWith, ih]

theorem strStartsWith_append (p s : String) : strStartsWith (p ++ s) p = true := by
  unfold strStartsWith
  rw [String.data_append]
  exact leadsWith_self_append p.data s.data

theorem isFanOutId_image (s : String) : isFanOutId ("image-" ++ s) = true := by
  unfold isFanOutId
  rw [strStartsWith_append "image-" s]
  simp

theorem filter_not_filter_self {α : Type} (p : α → Bool) (l : List α) :
    (l.filter (fun a => !(p a))).filter p = [] := by
  induction l with
  | nil => rfl
  | cons a as ih => by_cases h : p a <;> simp [List.filter_cons, h, ih]

/-! ### Claim C6: age-range canonicalization -/

/-- C6: the age-range canonicalization maps the four open/closed bound shapes
to exactly the four string encodings: both open → `"All"`, min open → `"M-"`,
max open → `"m+"`, both closed → `"m-M"`, e.g. `{min:18,max:34}` → `"18-34"`. -/
theorem claim_C6_ageRangeStr_canonical (mn mx : Int) :
    ageRangeStr ⟨none, none⟩ = "All" ∧
    ageRangeStr ⟨none, some mx⟩ = toString mx ++ "-" ∧
    ageRangeStr ⟨some mn, none⟩ = toString mn ++ "+" ∧
    ageRangeStr ⟨some mn, some mx⟩ = toString mn ++ "-" ++ toString mx ∧
    ageRangeStr ⟨some 18, some 34⟩ = "18-34" :=
  ⟨rfl, rfl, rfl, rfl, by decide⟩

/-! ### Claim C10: JSONL feed parsing -/

theorem parseLines_eq (decode : String → Option FeedEntry) (randId : String)
    (maxItems : Nat) (lines : List String) :
    ∀ count, parseLines decode randId maxItems lines count
      = (lines.filterMap (fun l => (decode l).map (tweetOfEntry randId))).take
          (maxItems - count) := by
  induction lines with
  | nil => intro count; simp [parseLines]
  | cons l ls ih =>
    intro count
    by_cases h : maxItems ≤ count
    · have h0 : maxItems - count = 0 := Nat.sub_eq_zero_of_le h
      simp [parseLines, h, h0]
    · cases hd : decode l with
      | some e =>
        have hsub : maxItems - count = (maxItems - (count + 1)) + 1 := by omega
        simp [parseLines, h, hd, ih (count + 1), hsub, List.filterMap_cons]
      | none => simp [parseLines, h, hd, ih count, List.filterMap_cons]

/-- C10: `parseJsonlFeed` returns the records of the first successfully
decoded non-empty lines, in source order, cut off at `maxItems`; empty lines
and undecodable lines are skipped (the function is total — no error), and the
result never holds more than `maxItems` records. -/
theorem claim_C10_parseJsonlFeed (decode : String → Option FeedEntry)
    (randId text : String) (maxItems : Nat) :
    parseJsonlFeed decode randId text maxItems
      = (((text.splitOn "\n").filter (fun l => !(l == ""))).filterMap
          (fun l => (decode l).map (tweetOfEntry randId))).take maxItems ∧
    (parseJsonlFeed decode randId text maxItems).length ≤ maxItems := by
  have h := parseLines_eq decode randId maxItems
    ((text.splitOn "\n").filter (fun l => !(l == ""))) 0
  constructor
  · simpa [parseJsonlFeed] using h
  · unfold parseJsonlFeed
    rw [h, List.length_take]
    omega

/-! ### Claims C3/C4: the feed merge loop -/

theorem buildSlots_filterMap_ad (k : Nat) (tweets : List Tweet) (img : Option String) :
    ∀ (r pos ti : Nat),
      (buildSlots k tweets img pos ti r).filterMap adKeyOf
        = ((List.range' pos r).filter (fun p => p % k == 0)).map
            (fun p => "ad-" ++ toString p) := by
  intro r
  induction r with
  | zero => intro pos ti; simp [buildSlots]
  | succ n ih =>
    intro pos ti
    rw [List.range'_succ]
    by_cases h : pos % k = 0
    · simp [buildSlots, h, List.filterMap_cons, adKeyOf, List.filter_cons, ih]
    · cases hg : tweets[ti]? with
      | some t =>
        simp [buildSlots, h, hg, List.filterMap_cons, adKeyOf, List.filter_cons, ih]
      | none => simp [buildSlots, h, hg, List.filter_cons, ih]

theorem buildSlots_filterMap_tweet (k : Nat) (tweets : List Tweet) (img : Option String) :
    ∀ (r pos ti : Nat),
      (buildSlots k tweets img pos ti r).filterMap tweetValOf
        = (tweets.drop ti).take ((List.range' pos r).countP (fun p => !(p % k == 0))) := by
  intro r
  induction r with
  | zero => intro pos ti; simp [buildSlots]
  | succ n ih =>
    intro pos ti
    rw [List.range'_succ]
    by_cases h : pos % k = 0
    · simp [buildSlots, h, List.filterMap_cons, tweetValOf, List.countP_cons, ih]
    · cases hg : tweets[ti]? with
      | some t =>
        have hlt : ti < tweets.length := by
          by_contra hge
          rw [List.getElem?_eq_none (by omega)] at hg
          exact Option.noConfusion hg
        have hdrop : tweets.drop ti = t :: tweets.drop (ti + 1) := by
          have h2 : tweets[ti] = t := by
            rw [List.getElem?_eq_getElem hlt] at hg
            exact Option.some.inj hg
          rw [List.drop_eq_getElem_cons hlt, h2]
        simp [buildSlots, h, hg, List.filterMap_cons, tweetValOf, List.countP_cons, ih,
          hdrop, List.take_succ_cons]
      | none =>
        have hdrop : tweets.drop ti = [] :=
          List.drop_eq_nil_of_le (List.getElem?_eq_none_iff.mp hg)
        simp [buildSlots, h, hg, List.countP_cons, ih, hdrop]

theorem buildSlots_length_le (k : Nat) (tweets : List Tweet) (img : Option String) :
    ∀ (r pos ti : Nat), (buildSlots k tweets img pos ti r).length ≤ r := by
  intro r
  induction r with
  | zero => intro pos ti; simp [buildSlots]
  | succ n ih =>
    intro pos ti
    by_cases h : pos % k = 0
    · simp only [buildSlots, if_pos h, List.length_cons]
      exact Nat.succ_le_succ (ih (pos + 1) ti)
    · cases hg : tweets[ti]? with
      | some t =>
        simp only [buildSlots, if_neg h, List.get?_eq_getElem?, hg, List.length_cons]
        exact Nat.succ_le_succ (ih (pos + 1) (ti + 1))
      | none =>
        simp only [buildSlots, if_neg h, List.get?_eq_getElem?, hg]
        exact Nat.le_succ_of_le (ih (pos + 1) ti)

theorem countP_range_mod (k : Nat) :
    ∀ T : Nat, (List.range T).countP (fun i => (1 + i) % k == 0) = T / k := by
  intro T
  induction T with
  | zero => simp
  | succ n ih =>
    rw [List.range_succ, List.countP_append, ih, Nat.succ_div]
    by_cases hd : k ∣ (n + 1)
    · have hm : (1 + n) % k = 0 := by
        rw [Nat.add_comm]; exact Nat.dvd_iff_mod_eq_zero.mp hd
      simp [List.countP_cons, hm, hd]
    · have hm : ¬ (1 + n) % k = 0 := by
        rw [Nat.add_comm]; exact fun hmm => hd (Nat.dvd_iff_mod_eq_zero.mpr hmm)
      simp [List.countP_cons, hm, hd]

theorem countP_range_not_mod (k : Nat) :
    ∀ T : Nat, (List.range T).countP (fun i => !((1 + i) % k == 0)) = T - T / k := by
  intro T
  induction T with
  | zero => simp
  | succ n ih =>
    have hdle := Nat.div_le_self n k
    rw [List.range_succ, List.countP_append, ih, Nat.succ_div]
    by_cases hd : k ∣ (n + 1)
    · have hm : (1 + n) % k = 0 := by
        rw [Nat.add_comm]; exact Nat.dvd_iff_mod_eq_zero.mp hd
      have h1 : List.countP (fun i => !((1 + i) % k == 0)) [n] = 0 := by
        simp [List.countP_cons, hm]
      rw [h1, if_pos hd]
      omega
    · have hm : ¬ (1 + n) % k = 0 := by
        rw [Nat.add_comm]; exact fun hmm => hd (Nat.dvd_iff_mod_eq_zero.mpr hmm)
      have h1 : List.countP (fun i => !((1 + i) % k == 0)) [n] = 1 := by
        simp [List.countP_cons, hm]
      rw [h1, if_neg hd]
      omega

/-- C3: for a positive `adInterval`, the merge emits the ad slot exactly at
the positions `p ∈ [1, totalSlots]` divisible by `adInterval` — exactly
`totalSlots / adInterval` (floor) of them — and its content slots are the
first `totalSlots - totalSlots / adInterval` items of `content` in original
order (fewer when content runs out, so the output can be shorter than
`totalSlots`; content is never reordered). -/
theorem claim_C3_feed_merge (T k : Nat) (tweets : List Tweet) (img : Option String)
    (hk : 0 < k) :
    (buildDisplayFeedWith T k tweets img).filterMap adKeyOf
      = ((List.range' 1 T).filter (fun p => p % k == 0)).map (fun p => "ad-" ++ toString p) ∧
    ((buildDisplayFeedWith T k tweets img).filterMap adKeyOf).length = T / k ∧
    (buildDisplayFeedWith T k tweets img).filterMap tweetValOf = tweets.take (T - T / k) ∧
    (buildDisplayFeedWith T k tweets img).length ≤ T := by
  have hads := buildSlots_filterMap_ad k tweets img T 1 0
  have htw := buildSlots_filterMap_tweet k tweets img T 1 0
  refine ⟨hads, ?_, ?_, buildSlots_length_le k tweets img T 1 0⟩
  · rw [show buildDisplayFeedWith T k tweets img = buildSlots k tweets img 1 0 T from rfl]
    rw [hads, List.length_map, ← List.countP_eq_length_filter]
    rw [List.range'_eq_map_range, List.countP_map]
    have := countP_range_mod k T
    simpa [Function.comp] using this
  · rw [show buildDisplayFeedWith T k tweets img = buildSlots k tweets img 1 0 T from rfl]
    rw [htw, List.drop_zero]
    congr 1
    rw [List.range'_eq_map_range, List.countP_map]
    have := countP_range_not_mod k T
    simpa [Function.comp] using this

/-- Sample content item used in concrete instances. -/
def sampleTweet (n : Nat) : Tweet :=
  { id := toString n, authorName := "Foodie", authorHandle := "@foodie"
    text := "t" ++ toString n }

/-- Sample content sequence used in concrete instances. -/
def c3Tweets : List Tweet :=
  [sampleTweet 0, sampleTweet 1, sampleTweet 2, sampleTweet 3,
   sampleTweet 4, sampleTweet 5, sampleTweet 6, sampleTweet 7]

/-- Witness for C3 at `totalSlots = 10`, `adInterval = 3` and eight content
items: ads at positions 3, 6, 9 and the first seven content items in order. -/
theorem claim_C3_witness :
    0 < 3 ∧
    ((buildDisplayFeedWith 10 3 c3Tweets (some "img")).filterMap adKeyOf
        = ((List.range' 1 10).filter (fun p => p % 3 == 0)).map (fun p => "ad-" ++ toString p) ∧
      ((buildDisplayFeedWith 10 3 c3Tweets (some "img")).filterMap adKeyOf).length = 10 / 3 ∧
      (buildDisplayFeedWith 10 3 c3Tweets (some "img")).filterMap tweetValOf
        = c3Tweets.take (10 - 10 / 3) ∧
      (buildDisplayFeedWith 10 3 c3Tweets (some "img")).length ≤ 10) :=
  ⟨by decide, claim_C3_feed_merge 10 3 c3Tweets (some "img") (by decide)⟩

/-- C4 counterexample: calling the merge with `adInterval = 0` does not fail —
it silently returns a plain output (here: two content slots and no ads), so
the claimed hard rejection at call time does not exist in the code. -/
theorem claim_C4_counterexample :
    buildDisplayFeedWith 10 0 [sampleTweet 0, sampleTweet 1] (some "img")
      = [DisplayItem.tweet "tweet-1" (sampleTweet 0),
         DisplayItem.tweet "tweet-2" (sampleTweet 1)] := by decide

/-- C4 amended: there is no `adInterval` validation; with `adInterval = 0`
the merge silently emits no ad slot at all (for every position `p ≥ 1`,
`p % 0 ≠ 0`, mirroring JS `p % 0` being `NaN`) and consumes up to
`totalSlots` content items in order, returning normally. -/
theorem claim_C4_amended (tweets : List Tweet) (img : Option String) :
    (buildDisplayFeedWith 10 0 tweets img).filterMap adKeyOf = [] ∧
    (buildDisplayFeedWith 10 0 tweets img).filterMap tweetValOf = tweets.take 10 := by
  constructor
  · rw [show buildDisplayFeedWith 10 0 tweets img = buildSlots 0 tweets img 1 0 10 from rfl]
    rw [buildSlots_filterMap_ad 0 tweets img 10 1 0]
    decide
  · rw [show buildDisplayFeedWith 10 0 tweets img = buildSlots 0 tweets img 1 0 10 from rfl]
    rw [buildSlots_filterMap_tweet 0 tweets img 10 1 0, List.drop_zero]
    have h10 : (List.range' 1 10).countP (fun p => !(p % 0 == 0)) = 10 := by decide
    rw [h10]

/-! ### Claim C2: centered fan-out placement -/

theorem centeredOffsets_getD (N : Nat) (S : Rat) (i : Nat) (h1 : 1 ≤ N) (hi : i < N) :
    (centeredOffsets N S).getD i 0 = ((i : Rat) - ((N : Rat) - 1) / 2) * S := by
  by_cases hN : N ≤ 1
  · have hN1 : N = 1 := le_antisymm hN h1
    subst hN1
    have hi0 : i = 0 := by omega
    subst hi0
    simp [centeredOffsets]
  · rw [centeredOffsets, if_neg hN, List.getD_eq_getElem?_getD, List.getElem?_map,
      List.getElem?_range hi]
    simp

theorem newFanNodes_centerOffset (images : List GenImage) (baseY : Rat) (j : Nat)
    (hj : j < images.length) :
    ((newFanNodes images baseY).get? j).map (fun n => n.data.centerOffset)
      = some ((centeredOffsets images.length 480).getD j 0) := by
  unfold newFanNodes
  rw [List.get?_map, List.get?_eq_getElem?, List.getElem?_enum,
    List.getElem?_eq_getElem hj]
  simp

/-- C2: the `i`-th fan-out sibling's `centerOffset` is `(i - (N-1)/2) * S`
(`S = 480` in the handler), and a single sibling sits at offset `0`, so the
siblings are symmetric around the source node's vertical position. -/
theorem claim_C2_centered_fanout (N : Nat) (S : Rat) (i : Nat) (images : List GenImage)
    (baseY : Rat) (j : Nat) (h1 : 1 ≤ N) (hi : i < N) (hj : j < images.length) :
    (centeredOffsets N S).getD i 0 = ((i : Rat) - ((N : Rat) - 1) / 2) * S ∧
    (centeredOffsets 1 S).getD 0 0 = 0 ∧
    ((newFanNodes images baseY).get? j).map (fun n => n.data.centerOffset)
      = some (((j : Rat) - ((images.length : Rat) - 1) / 2) * 480) := by
  refine ⟨centeredOffsets_getD N S i h1 hi, ?_, ?_⟩
  · rw [centeredOffsets_getD 1 S 0 le_rfl Nat.one_pos]
    norm_num
  · rw [newFanNodes_centerOffset images baseY j hj,
      centeredOffsets_getD images.length 480 j (by omega) hj]

/-- Sample generated images used in concrete instances. -/
def fanImages : List GenImage :=
  [{ image_url := some "u0" }, { image_url := some "u1", text_placement := some "top" }]

/-- Witness for C2 with two siblings and spacing 480: offsets `-240` and
`+240`, read back from the constructed fan-out nodes. -/
theorem claim_C2_witness :
    1 ≤ 2 ∧ 0 < 2 ∧ 1 < fanImages.length ∧
    ((centeredOffsets 2 (480 : Rat)).getD 0 0
        = (((0 : Nat) : Rat) - (((2 : Nat) : Rat) - 1) / 2) * 480 ∧
      (centeredOffsets 1 (480 : Rat)).getD 0 0 = 0 ∧
      ((newFanNodes fanImages 200).get? 1).map (fun n => n.data.centerOffset)
        = some ((((1 : Nat) : Rat) - ((fanImages.length : Rat) - 1) / 2) * 480)) :=
  ⟨by decide, by decide, by decide,
   claim_C2_centered_fanout 2 480 0 fanImages 200 1 (by decide) (by decide) (by decide)⟩

/-! ### Claim C1: re-fan-out replaces the previous generation -/

theorem newFanNodes_all_fanOut (images : List GenImage) (baseY : Rat) :
    ∀ n ∈ newFanNodes images baseY, isFanOutId n.id = true := by
  intro n hn
  unfold newFanNodes at hn
  obtain ⟨p, hp, rfl⟩ := List.mem_map.mp hn
  exact isFanOutId_image (toString p.1)

theorem newFanEdges_all_fanOut (images : List GenImage) :
    ∀ e ∈ newFanEdges images, isFanOutId e.target = true := by
  intro e he
  unfold newFanEdges at he
  obtain ⟨p, hp, rfl⟩ := List.mem_map.mp he
  exact isFanOutId_image (toString p.1)

theorem newFanNodes_length (images : List GenImage) (baseY : Rat) :
    (newFanNodes images baseY).length = images.length := by
  unfold newFanNodes
  rw [List.length_map, List.enum_length]

theorem newFanEdges_length (images : List GenImage) :
    (newFanEdges images).length = images.length := by
  unfold newFanEdges
  rw [List.length_map, List.enum_length]

/-- C1: after a successful fan-out over any prior state, the fan-out stage
nodes in the graph are exactly the `N = images.length` freshly created
siblings, the edges targeting a fan-out node are exactly the `N` fresh edges
(every previously created fan-out node and edge targeting one is gone), and
edges of other stages are untouched — so the stage never holds more than the
latest `N`. -/
theorem claim_C1_refanout_replaces (c : Canvas) (images : List GenImage) :
    (handleBrandStyleConfirmedSuccess images c).nodes.filter (fun n => isFanOutId n.id)
      = newFanNodes images (brandBaseY c) ∧
    ((handleBrandStyleConfirmedSuccess images c).nodes.filter
        (fun n => isFanOutId n.id)).length = images.length ∧
    (handleBrandStyleConfirmedSuccess images c).edges.filter (fun e => isFanOutId e.target)
      = newFanEdges images ∧
    ((handleBrandStyleConfirmedSuccess images c).edges.filter
        (fun e => isFanOutId e.target)).length = images.length ∧
    (handleBrandStyleConfirmedSuccess images c).edges.filter (fun e => !(isFanOutId e.target))
      = c.edges.filter (fun e => !(isFanOutId e.target)) := by
  have hsn : (handleBrandStyleConfirmedSuccess images c).nodes
      = (updateNodeStatus "brandStyle" "completed"
          (updateNodeStatus "brandStyle" "active" c)).nodes.filter
            (fun n => !(isFanOutId n.id)) ++ newFanNodes images (brandBaseY c) := rfl
  have hse : (handleBrandStyleConfirmedSuccess images c).edges
      = c.edges.filter (fun e => !(isFanOutId e.target)) ++ newFanEdges images := rfl
  have h1 : (handleBrandStyleConfirmedSuccess images c).nodes.filter
      (fun n => isFanOutId n.id) = newFanNodes images (brandBaseY c) := by
    rw [hsn, List.filter_append,
      filter_not_filter_self (fun (n : FlowNode) => isFanOutId n.id),
      List.filter_eq_self.mpr (newFanNodes_all_fanOut images (brandBaseY c))]
    exact List.nil_append _
  have h3 : (handleBrandStyleConfirmedSuccess images c).edges.filter
      (fun e => isFanOutId e.target) = newFanEdges images := by
    rw [hse, List.filter_append,
      filter_not_filter_self (fun (e : FlowEdge) => isFanOutId e.target),
      List.filter_eq_self.mpr (newFanEdges_all_fanOut images)]
    exact List.nil_append _
  have h5 : (handleBrandStyleConfirmedSuccess images c).edges.filter
      (fun e => !(isFanOutId e.target)) = c.edges.filter (fun e => !(isFanOutId e.target)) := by
    rw [hse, List.filter_append]
    have hidem : (c.edges.filter (fun e => !(isFanOutId e.target))).filter
        (fun e => !(isFanOutId e.target))
        = c.edges.filter (fun e => !(isFanOutId e.target)) :=
      List.filter_eq_self.mpr (fun a ha => (List.mem_filter.mp ha).2)
    have hnil : (newFanEdges images).filter (fun e => !(isFanOutId e.target)) = [] := by
      rw [List.filter_eq_nil_iff]
      intro a ha
      rw [newFanEdges_all_fanOut images a ha]
      simp
    rw [hidem, hnil, List.append_nil]
  exact ⟨h1, by rw [h1, newFanNodes_length], h3, by rw [h3, newFanEdges_length], h5⟩

/-! ### Claim C5: generation failure reverts status, keeps topology -/

/-- C5: when the generation call fails, the edge list is exactly the one from
before the invocation, the node list has the same ids in the same order,
every node other than BrandStyle is exactly unchanged in place, and the
BrandStyle node differs only in its status, which is `active` again — so the
confirmation can safely be re-invoked. -/
theorem claim_C5_failure_reverts (c : Canvas) :
    (handleBrandStyleConfirmedFailure c).edges = c.edges ∧
    (handleBrandStyleConfirmedFailure c).nodes.map FlowNode.id = c.nodes.map FlowNode.id ∧
    (∀ i n, c.nodes.get? i = some n → ¬ n.id = "brandStyle" →
        (handleBrandStyleConfirmedFailure c).nodes.get? i = some n) ∧
    (∀ i n, c.nodes.get? i = some n → n.id = "brandStyle" →
        (handleBrandStyleConfirmedFailure c).nodes.get? i
          = some { n with data := { n.data with status := "active" } }) := by
  refine ⟨rfl, ?_, ?_, ?_⟩
  · show ((c.nodes.map _).map _).map FlowNode.id = c.nodes.map FlowNode.id
    rw [List.map_map, List.map_map]
    apply List.map_congr_left
    intro a _
    by_cases h : a.id = "brandStyle" <;> simp [Function.comp, h]
  · intro i n hget hne
    show ((c.nodes.map _).map _).get? i = some n
    rw [List.map_map, List.get?_map, hget]
    simp [Function.comp, hne]
  · intro i n hget hid
    show ((c.nodes.map _).map _).get? i = some _
    rw [List.map_map, List.get?_map, hget]
    simp [Function.comp, hid]

/-! ### Claim C7: duplicate preview requests are no-ops -/

theorem map_eq_self_of_mem {α : Type} (l : List α) (f : α → α)
    (h : ∀ a ∈ l, f a = a) : l.map f = l :=
  (List.map_congr_left h).trans (List.map_id l)

theorem updateNodeStatus_noop (nodeId status : String) (c : Canvas)
    (h : ∀ n ∈ c.nodes, n.id = nodeId → n.data.status = status) :
    updateNodeStatus nodeId status c = c := by
  show ({ c with nodes := _ } : Canvas) = c
  have hmap : c.nodes.map (fun n =>
      if n.id = nodeId then { n with data := { n.data with status := status } } else n)
      = c.nodes := by
    apply map_eq_self_of_mem
    intro n hn
    by_cases hid : n.id = nodeId
    · rw [if_pos hid, ← h n hn hid]
    · rw [if_neg hid]
  rw [hmap]

theorem mem_map_statusSet (l : List FlowNode) (nodeId status : String) :
    ∀ n ∈ l.map (fun m =>
        if m.id = nodeId then { m with data := { m.data with status := status } } else m),
      n.id = nodeId → n.data.status = status := by
  intro n hn hid
  obtain ⟨m, hm, rfl⟩ := List.mem_map.mp hn
  by_cases h : m.id = nodeId
  · rw [if_pos h]
  · rw [if_neg h] at hid ⊢
    exact absurd hid h

theorem any_map_statusSet (l : List FlowNode) (nodeId status pid : String) :
    (l.map (fun m =>
        if m.id = nodeId then { m with data := { m.data with status := status } } else m)).any
      (fun n => n.id == pid)
      = l.any (fun n => n.id == pid) := by
  induction l with
  | nil => rfl
  | cons a as ih =>
    by_cases h : a.id = nodeId <;> simp [List.any_cons, h, ih]

theorem handlePreviewImage_facts (nodeId : String) (d : NodeData) (c : Canvas) :
    ((handlePreviewImage nodeId d c).nodes.any
        (fun n => n.id == "preview-" ++ nodeId)) = true ∧
    ((handlePreviewImage nodeId d c).edges.any
        (fun e => e.target == "preview-" ++ nodeId)) = true ∧
    (∀ n ∈ (handlePreviewImage nodeId d c).nodes, n.id = nodeId →
        n.data.status = "completed") := by
  simp only [handlePreviewImage, updateNodeStatus]
  refine ⟨?_, ?_, ?_⟩
  · rw [any_map_statusSet]
    split_ifs with h
    · exact h
    · rw [List.any_append]
      simp
  · split_ifs with h
    · exact h
    · rw [List.any_append]
      simp [makeEdge]
  · exact mem_map_statusSet _ nodeId "completed"

/-- C7: a second preview request for the same branch, after any first one, is
a no-op — the whole canvas (node set, edge set and every node status) is left
exactly as the first request produced it. -/
theorem claim_C7_preview_idempotent (c : Canvas) (nodeId : String) (d1 d2 : NodeData) :
    handlePreviewImage nodeId d2 (handlePreviewImage nodeId d1 c)
      = handlePreviewImage nodeId d1 c := by
  have hfacts := handlePreviewImage_facts nodeId d1 c
  set c1 := handlePreviewImage nodeId d1 c with hc1
  have hn := hfacts.1
  have he := hfacts.2.1
  have hs := hfacts.2.2
  unfold handlePreviewImage
  simp only [hn, he, if_true]
  exact updateNodeStatus_noop nodeId "completed" c1 hs

/-! ### Claim C9: demographics received -/

/-- A session canvas in which the edge into the Demographics node (`e1-2`)
does not carry the active style. -/
def c9Canvas : Canvas :=
  { nodes := initialNodes
    edges := [ makeEdge "e1-2" "productUrl" "demographics" false false false "#cfd0d2"
             , makeEdge "e2-3" "demographics" "brandStyle" false false false "#cfd0d2" ] }

/-- A concrete received demographics payload. -/
def sampleDemo : Demographics :=
  { product_url := "https://example.com/pan", gender := "Any"
    age_range := some ⟨some 18, some 34⟩
    language := some ["English"], location := some ["United States"], intent := "cook" }

/-- C9 counterexample: `handleDemographicsReceived` does not mark the edge
incoming to the Demographics node active — on a state whose `e1-2`
(productUrl → demographics) lacks the active style, that edge still lacks it
after the handler runs (the handler only touches `e2-3`). -/
theorem claim_C9_counterexample :
    ((handleDemographicsReceived sampleDemo c9Canvas).edges.filter
        (fun e => e.target == "demographics")).any (fun e => e.styleActive) = false ∧
    ((handleDemographicsReceived sampleDemo c9Canvas).edges.filter
        (fun e => e.target == "demographics")).length = 1 := by
  constructor <;> rfl

/-- C9 amended: `handleDemographicsReceived` marks the ProductInput node
Completed and the Demographics node Active with the payload stored, and marks
the `e2-3` edge — the one *outgoing* from the Demographics node to BrandStyle,
not the edge incoming to Demographics — with the active style; every other
edge is untouched. -/
theorem claim_C9_amended (c : Canvas) (d : Demographics) :
    (∀ n ∈ (handleDemographicsReceived d c).nodes, n.id = "productUrl" →
        n.data.status = "completed") ∧
    (∀ n ∈ (handleDemographicsReceived d c).nodes, n.id = "demographics" →
        n.data.status = "active" ∧ n.data.demographics = some d) ∧
    (∀ e ∈ (handleDemographicsReceived d c).edges, e.id = "e2-3" →
        e.styleActive = true ∧ e.markerColor = "#ffffff") ∧
    (∀ i e, c.edges.get? i = some e → ¬ e.id = "e2-3" →
        (handleDemographicsReceived d c).edges.get? i = some e) := by
  refine ⟨?_, ?_, ?_, ?_⟩
  · intro n hn hid
    show n.data.status = "completed"
    have hn' : n ∈ (c.nodes.map (fun m =>
        if m.id = "productUrl" then { m with data := { m.data with status := "completed" } }
        else m)).map (fun m =>
        if m.id = "demographics" then
          { m with data := { m.data with status := "active", demographics := some d } }
        else m) := hn
    obtain ⟨m1, hm1, rfl⟩ := List.mem_map.mp hn'
    obtain ⟨m0, hm0, rfl⟩ := List.mem_map.mp hm1
    by_cases h0 : m0.id = "productUrl"
    · simp [h0]
    · by_cases h1 : m0.id = "demographics" <;> simp [h0, h1] at hid
  · intro n hn hid
    have hn' : n ∈ (c.nodes.map (fun m =>
        if m.id = "productUrl" then { m with data := { m.data with status := "completed" } }
        else m)).map (fun m =>
        if m.id = "demographics" then
          { m with data := { m.data with status := "active", demographics := some d } }
        else m) := hn
    obtain ⟨m1, hm1, rfl⟩ := List.mem_map.mp hn'
    obtain ⟨m0, hm0, rfl⟩ := List.mem_map.mp hm1
    by_cases h0 : m0.id = "productUrl"
    · simp [h0] at hid
    · by_cases h1 : m0.id = "demographics"
      · simp [h0, h1]
      · simp [h0, h1] at hid
  · intro e he hid
    have he' : e ∈ c.edges.map (fun a =>
        if a.id = "e2-3" then
          { a with animated := false, styleActive := true, markerColor := "#ffffff" }
        else a) := he
    obtain ⟨a, ha, rfl⟩ := List.mem_map.mp he'
    by_cases h : a.id = "e2-3"
    · simp [h]
    · simp [h] at hid
  · intro i e hget hne
    show (c.edges.map _).get? i = some e
    rw [List.get?_map, hget]
    simp [hne]

/-! ### Claim C8: autoscroll accumulator bounds -/

theorem autoscrollTick_bounds (H acc t : Rat) (hH : scrollSpeed ≤ H)
    (h0 : 0 ≤ acc) (h1 : acc < H) (ht : 0 ≤ t) :
    0 ≤ autoscrollTick H acc t ∧ autoscrollTick H acc t < H := by
  have hH' : (4 : Rat) / 5 ≤ H := hH
  unfold autoscrollTick scrollSpeed
  have hd0 : (0 : Rat) ≤ min t 16 := le_min ht (by norm_num)
  have hd16 : min t 16 ≤ 16 := min_le_right t 16
  have hinc0 : (0 : Rat) ≤ 4 / 5 * (min t 16 / 16) := by positivity
  have hinc1 : (4 : Rat) / 5 * (min t 16 / 16) ≤ 4 / 5 := by
    have hq : min t 16 / 16 ≤ 1 := by
      rw [div_le_one (by norm_num : (0 : Rat) < 16)]
      exact hd16
    nlinarith
  dsimp only
  split_ifs with h
  · constructor
    · linarith
    · linarith
  · push_neg at h
    constructor
    · linarith
    · linarith

theorem autoscrollRun_inv (H : Rat) (hH : scrollSpeed ≤ H) :
    ∀ (ticks : List Rat) (acc : Rat), 0 ≤ acc → acc < H → (∀ t ∈ ticks, 0 ≤ t) →
      0 ≤ ticks.foldl (autoscrollTick H) acc ∧ ticks.foldl (autoscrollTick H) acc < H := by
  intro ticks
  induction ticks with
  | nil => intro acc h0 h1 _; exact ⟨h0, h1⟩
  | cons t ts ih =>
    intro acc h0 h1 hts
    rw [List.foldl_cons]
    have ht : 0 ≤ t := hts t (List.mem_cons_self t ts)
    have h' := autoscrollTick_bounds H acc t hH h0 h1 ht
    exact ih (autoscrollTick H acc t) h'.1 h'.2 (fun u hu => hts u (List.mem_cons_of_mem t hu))

/-- C8 counterexample: with a single-copy feed height of `1/2` (smaller than
the per-tick advance bound `scrollSpeed = 0.8`), two full 16 ms ticks leave
the accumulator at `3/5`, outside `[0, 1/2)` even though the wrap subtraction
ran — so the claim fails as stated for arbitrary heights. -/
theorem claim_C8_counterexample :
    autoscrollRun (1 / 2) [16, 16] = 3 / 5 ∧
    ¬ autoscrollRun (1 / 2) [16, 16] < 1 / 2 := by
  have h : autoscrollRun (1 / 2) [16, 16] = 3 / 5 := by
    unfold autoscrollRun autoscrollTick scrollSpeed
    norm_num
  exact ⟨h, by rw [h]; norm_num⟩

/-- C8 amended: provided the single-copy feed height is at least the per-tick
advance bound `scrollSpeed` (0.8 px — true of any real feed), every tick
sequence with non-negative elapsed times keeps the accumulator in
`[0, singleHeight)`: it is wrapped as soon as it reaches the height, and
after each wrap it lies in `[0, singleHeight)` again. -/
theorem claim_C8_amended (H : Rat) (ticks : List Rat) (hH : scrollSpeed ≤ H)
    (hts : ∀ t ∈ ticks, 0 ≤ t) :
    0 ≤ autoscrollRun H ticks ∧ autoscrollRun H ticks < H := by
  have hpos : (0 : Rat) < H := lt_of_lt_of_le (by norm_num [scrollSpeed]) hH
  exact autoscrollRun_inv H hH ticks 0 le_rfl hpos hts

/-- Witness for C8 amended: a 100 px feed copy with ticks of 16, 5 and 30 ms
keeps the accumulator inside `[0, 100)`. -/
theorem claim_C8_witness :
    scrollSpeed ≤ 100 ∧
    (0 ≤ autoscrollRun 100 [16, 5, 30] ∧ autoscrollRun 100 [16, 5, 30] < 100) :=
  ⟨by norm_num [scrollSpeed],
   claim_C8_amended 100 [16, 5, 30] (by norm_num [scrollSpeed])
     (by intro t ht; fin_cases ht <;> norm_num)⟩
